import Mathlib

/-!
Shallow embedding of the AI_Recruiter repository (AI_agent.py,
resume_parser.py, crelate_client.py, main.py) and proofs about it.

External collaborators (the OpenAI chat endpoint, json.loads, the Crelate
HTTP API, PyPDF2, Word COM automation, the filesystem) are modelled as
explicit inputs: the embedded functions receive the outcome of each external
call as data and perform the repository's own logic on it.
-/

namespace AIRecruiter

/-! ## Python value model for parsed JSON score fields (AI_agent.py) -/

/-- A JSON value that may appear in the "score" field of a parsed model
response entry: a number, a string, or some other value (null etc.) on
which Python's float() raises. -/
inductive PyVal where
  | num (q : ℚ)
  | str (s : String)
  | null
  deriving Repr, DecidableEq

/-- Fold a digit list into a natural number; fails on empty or non-digit
input.  Models the digit-string fragment accepted by Python int/float
parsing. -/
def digitsToNat (cs : List Char) : Option Nat :=
  if cs ≠ [] ∧ cs.all Char.isDigit then
    some (cs.foldl (fun n c => 10 * n + (c.toNat - 48)) 0)
  else
    Option.none

/-- The strip both Python float() and str.strip() perform: drop leading
and trailing whitespace characters. -/
def pyStripChars (cs : List Char) : List Char :=
  ((cs.dropWhile Char.isWhitespace).reverse.dropWhile Char.isWhitespace).reverse

/-- Python str.strip() with no argument. -/
def pyStrip (s : String) : String :=
  ⟨pyStripChars s.data⟩

/-- The decimal-integer fragment of Python's float() on strings: optional
surrounding whitespace, optional sign, then digits.  (Python float()
accepts more, e.g. fractions and exponents; the claims only exercise
integer strings such as "150".) -/
def parseFloatStr (s : String) : Option ℚ :=
  match pyStripChars s.data with
  | '-' :: rest => (digitsToNat rest).map (fun n => -(n : ℚ))
  | '+' :: rest => (digitsToNat rest).map (fun n => (n : ℚ))
  | t => (digitsToNat t).map (fun n => (n : ℚ))

/-- Python's float() coercion on the values that can sit in a score field:
numbers pass through, numeric strings are parsed, anything else raises. -/
def pyFloat : PyVal → Except String ℚ
  | .num q => .ok q
  | .str s =>
      match parseFloatStr s with
      | some q => .ok q
      | Option.none => .error ("could not convert string to float: " ++ s)
  | .null => .error "float() argument must be a string or a real number"

/-- One parsed entry of the model's JSON array, before clamping: the score
field is absent (none) or holds a raw JSON value. -/
structure RawEntry where
  filename : String
  score : Option PyVal
  rationale : String
  deriving Repr, DecidableEq

/-- One entry after the clamping pass: the score is a concrete number. -/
structure ScoredEntry where
  filename : String
  score : ℚ
  rationale : String
  deriving Repr, DecidableEq

/-- AI_agent.py line 63: item["score"] = max(0.0, min(100.0,
float(item.get("score", 0)))).  The absent key defaults to 0 before the
float() coercion; float() failures propagate (they abort score_resumes). -/
def clampScore (v : Option PyVal) : Except String ℚ :=
  match pyFloat (v.getD (PyVal.num 0)) with
  | .error e => .error e
  | .ok q => .ok (max 0 (min 100 q))

/-- The clamping loop of AI_agent.py lines 62-63 over every parsed entry;
the first float() failure aborts score_resumes. -/
def clampAll : List RawEntry → Except String (List ScoredEntry)
  | [] => .ok []
  | e :: rest =>
      match clampScore e.score with
      | .error msg => .error msg
      | .ok q =>
          match clampAll rest with
          | .error msg => .error msg
          | .ok tail =>
              .ok ({ filename := e.filename, score := q, rationale := e.rationale } :: tail)

/-! ## Stable descending sort (Python list.sort with key and reverse=True)

Python's sort is stable; with reverse=True it orders by the key
descending while ties keep their original relative order.  The insertion
sort below has exactly that semantics: an element is inserted before the
first position whose key is less than or equal to its own, hence after
every strictly greater key and before every equal key coming from later
input positions. -/

variable {α : Type} {β : Type}

/-- Insert x into a descending-sorted list: skip over strictly greater
keys, stop at the first key less than or equal to x's. -/
def insertKeyDesc [LinearOrder β] (key : α → β) (x : α) : List α → List α
  | [] => [x]
  | y :: ys => if key x < key y then y :: insertKeyDesc key x ys else x :: y :: ys

/-- Stable descending insertion sort by a key. -/
def sortKeyDesc [LinearOrder β] (key : α → β) : List α → List α
  | [] => []
  | x :: xs => insertKeyDesc key x (sortKeyDesc key xs)

/-! ## score_resumes (AI_agent.py lines 19-67)

The prompt construction and the single chat-completion request are
external effects; the embedded function receives the response content
and the outcome of json.loads on it (none when parsing raised
JSONDecodeError) and performs the repository's own post-processing:
error on parse failure, clamp every score, sort descending. -/

/-- The user prompt built by AI_agent.py lines 39-45: job description, then
every resume section in mapping order, then the format instruction. -/
def buildUserPrompt (resumes : List (String × String)) (jobDescription : String) : String :=
  let base := "Job Description:\n" ++ jobDescription ++ "\n\n"
  let withResumes := resumes.foldl
    (fun acc kv => acc ++ "### Resume: " ++ kv.1 ++ "\n" ++ kv.2 ++ "\n\n") base
  withResumes ++ "Please respond ONLY with a valid JSON array"

/-- score_resumes after the chat call: `parsed` is the outcome of
json.loads on `content` (none when it raised).  The resumes mapping is
used only to build the prompt; the returned list is computed from the
parsed response alone. -/
def score_resumes (resumes : List (String × String)) (content : String)
    (parsed : Option (List RawEntry)) : Except String (List ScoredEntry) :=
  match parsed with
  | Option.none => .error ("Could not parse JSON response: " ++ content)
  | some results =>
      match clampAll results with
      | .error msg => .error msg
      | .ok clamped => .ok (sortKeyDesc ScoredEntry.score clamped)

/-! ## crelate_client.py: stage history lookup (lines 48-70) -/

/-- One stage-change history entry: the parsed Date (abstracted to a
timestamp number, since datetime.fromisoformat yields a totally ordered
value) and the optional Stage.Title
(history[i].get("Stage", {}).get("Title") may be absent). -/
structure HistEntry where
  date : Nat
  stageTitle : Option String
  deriving Repr, DecidableEq

/-- Outcome of a Crelate GET as the client code distinguishes it: 404,
success with a Data list, or another HTTP error status (on which
raise_for_status raises). -/
inductive ApiResp (α : Type) where
  | notFound
  | ok (data : List α)
  | httpError (status : Nat)
  deriving Repr, DecidableEq

/-- get_latest_stage (crelate_client.py lines 48-70): 404 yields None, a
non-404 error status raises, an empty history yields None, otherwise the
history is sorted by Date descending in code and the top entry's
Stage.Title is returned.  The empty match arm after the sort is
unreachable (sorting a nonempty list is nonempty). -/
def get_latest_stage (resp : ApiResp HistEntry) : Except String (Option String) :=
  match resp with
  | .notFound => .ok Option.none
  | .httpError s => .error ("HTTPStatusError: " ++ toString s)
  | .ok [] => .ok Option.none
  | .ok (h :: t) =>
      match sortKeyDesc HistEntry.date (h :: t) with
      | [] => .ok Option.none
      | e :: _ => .ok e.stageTitle

/-! ## crelate_client.py: pagination (lines 27-46 and 107-136)

The HTTP layer is modelled by the list of successive page payloads the
API returns for offsets 0, len(page1), len(page1)+len(page2), ...  Each
loop iteration issues one request and consumes the next payload; the
model returns none if the loop would request beyond the modelled pages
(the real loop would simply issue another request there). -/

/-- One page payload: the Data array plus the Metadata totals the two
clients read. -/
structure Page (α : Type) where
  data : List α
  totalCount : Option Nat
  totalRecords : Option Nat
  deriving Repr, DecidableEq

/-- The page size constant PAGE_SIZE = 100. -/
def pageSize : Nat := 100

/-- The stop test at the bottom of both pagination loops:
len(batch) < limit or (total is not None and offset >= total). -/
def stopAfterBatch (limit batchLen : Nat) (total : Option Nat) (offset : Nat) : Bool :=
  decide (batchLen < limit) ||
    (match total with
     | some t => decide (t ≤ offset)
     | Option.none => false)

/-- The while loop of get_job_contacts (crelate_client.py lines 29-45),
one recursive call per request.  Returns the accumulated contacts and the
number of requests issued, or none when the modelled page list is
exhausted before the loop stops. -/
def getJobContactsLoop {α : Type} :
    List (Page α) → Nat → Option Nat → List α → Nat → Option (List α × Nat)
  | [], _, _, _, _ => Option.none
  | p :: rest, offset, total, acc, reqs =>
      let total := match total with
        | some t => some t
        | Option.none => p.totalCount
      if p.data.isEmpty then some (acc, reqs + 1)
      else
        let acc := acc ++ p.data
        let offset := offset + p.data.length
        if stopAfterBatch pageSize p.data.length total offset then some (acc, reqs + 1)
        else getJobContactsLoop rest offset total acc (reqs + 1)

/-- get_job_contacts (crelate_client.py lines 27-46). -/
def get_job_contacts {α : Type} (pages : List (Page α)) : Option (List α × Nat) :=
  getJobContactsLoop pages 0 Option.none [] 0

/-- Python's `a or b` on two optional numbers: a is kept unless it is
falsy (absent or zero).  Models meta.get("TotalRecords") or
meta.get("TotalCount") at crelate_client.py line 127. -/
def pyOrNat (a b : Option Nat) : Option Nat :=
  match a with
  | some n => if n = 0 then b else some n
  | Option.none => b

/-- The while loop of get_job_documents (crelate_client.py lines 111-134):
same shape as the contacts loop, with the caller-supplied limit and the
TotalRecords-or-TotalCount metadata read. -/
def getJobDocumentsLoop {α : Type} (limit : Nat) :
    List (Page α) → Nat → Option Nat → List α → Nat → Option (List α × Nat)
  | [], _, _, _, _ => Option.none
  | p :: rest, offset, total, acc, reqs =>
      let total := match total with
        | some t => some t
        | Option.none => pyOrNat p.totalRecords p.totalCount
      if p.data.isEmpty then some (acc, reqs + 1)
      else
        let acc := acc ++ p.data
        let offset := offset + p.data.length
        if stopAfterBatch limit p.data.length total offset then some (acc, reqs + 1)
        else getJobDocumentsLoop limit rest offset total acc (reqs + 1)

/-- get_job_documents (crelate_client.py lines 93-136) with its default
limit PAGE_SIZE. -/
def get_job_documents {α : Type} (pages : List (Page α)) (limit : Nat := pageSize) :
    Option (List α × Nat) :=
  getJobDocumentsLoop limit pages 0 Option.none [] 0

/-! ## crelate_client.py: attachment download (lines 72-90) -/

/-- The PrimaryDocumentAttachmentId object of a contact: its artifact Id
and Title fields, each possibly absent.  Python truthiness of the Id also
treats the empty string as falsy. -/
structure Attachment where
  id : Option String
  title : Option String
  deriving Repr, DecidableEq

/-- A contact record as the download code reads it. -/
structure Contact where
  id : String
  pa : Option Attachment
  deriving Repr, DecidableEq

/-- Outcome of the artifact content GET. -/
inductive ContentResp where
  | notFound
  | ok (bytes : String)
  | httpError (status : Nat)
  deriving Repr, DecidableEq

/-- A filesystem effect performed by the client. -/
inductive FsEff where
  | mkdirp (path : String)
  | write (path : String) (bytes : String)
  deriving Repr, DecidableEq

/-- Python truthiness of an optional string: absent and "" are falsy. -/
def truthyStr (o : Option String) : Bool :=
  match o with
  | some s => !s.isEmpty
  | Option.none => false

/-- download_contact_attachment (crelate_client.py lines 72-90): skip when
the attachment reference or its Id is falsy, skip on a 404 content
response, raise on another error status, otherwise mkdir the per-contact
directory under OUTPUT_DIR = "resumes" and write the file.  The returned
list is the sequence of filesystem effects performed. -/
def download_contact_attachment (c : Contact) (fetch : String → ContentResp) :
    Except String (List FsEff) :=
  match c.pa with
  | Option.none => .ok []
  | some pa =>
      if !truthyStr pa.id then .ok []
      else
        let aid := pa.id.getD ""
        let filename := pa.title.getD aid
        match fetch aid with
        | .notFound => .ok []
        | .httpError s => .error ("HTTPStatusError: " ++ toString s)
        | .ok bytes =>
            .ok [FsEff.mkdirp ("resumes/" ++ c.id),
                 FsEff.write ("resumes/" ++ c.id ++ "/" ++ filename) bytes]

/-! ## crelate_client.py: main (lines 167-176)

For each contact the loop evaluates
get_latest_stage(c["Id"]).strip() == "Good Fit"; when get_latest_stage
returns None the attribute access None.strip() raises AttributeError and
the whole loop aborts. -/

/-- The per-contact inputs of one run of crelate_client.main: the contact
record, its stage-history response, and the content response its
attachment fetch would get. -/
structure ContactRun where
  contact : Contact
  histResp : ApiResp HistEntry
  contentResp : ContentResp
  deriving Repr, DecidableEq

/-- The contact loop of crelate_client.main (lines 174-176), returning the
concatenated filesystem effects, or the first uncaught exception.  A None
stage becomes AttributeError at the .strip() call. -/
def crelateMainLoop : List ContactRun → Except String (List FsEff)
  | [] => .ok []
  | r :: rest =>
      match get_latest_stage r.histResp with
      | .error e => .error e
      | .ok Option.none =>
          .error "AttributeError: NoneType object has no attribute strip"
      | .ok (some t) =>
          match (if pyStrip t = "Good Fit" then
                   download_contact_attachment r.contact (fun _ => r.contentResp)
                 else .ok []) with
          | .error e => .error e
          | .ok effs =>
              match crelateMainLoop rest with
              | .error e => .error e
              | .ok tail => .ok (effs ++ tail)

/-! ## resume_parser.py: per-file extraction and folder scan

The parsing libraries (PyPDF2, Word COM, open/read) are modelled by
records describing the outcome of each external call; the embedded
functions reproduce the repository's own handling of those outcomes. -/

/-- Outcome of page.extract_text() for one PDF page: it may raise, return
None, or return a string; the code maps the first two to '' via the
except branch and the `or ''` fallback. -/
inductive PageOutcome where
  | pageError
  | pageNull
  | pageText (s : String)
  deriving Repr, DecidableEq

/-- The string resume_parser.py keeps for one page (lines 38-44). -/
def pageString : PageOutcome → String
  | .pageError => ""
  | .pageNull => ""
  | .pageText s => s

/-- The behaviour of one PDF file as PyPDF2 exposes it to the code. -/
structure PdfFile where
  openOk : Bool
  isEncrypted : Bool
  decryptOk : Bool
  pages : List PageOutcome
  deriving Repr, DecidableEq

/-- extract_text_from_pdf (resume_parser.py lines 17-45): returns "" when
the reader cannot be constructed or an encrypted file fails to decrypt
with the empty password; otherwise joins the per-page strings with
newlines.  Every internal failure is caught, so the function always
returns a string. -/
def extract_text_from_pdf (f : PdfFile) : String :=
  if !f.openOk then ""
  else if f.isEncrypted && !f.decryptOk then ""
  else String.intercalate "\n" (f.pages.map pageString)

/-- The behaviour of one Word file (.docx or .doc) as the COM automation
exposes it: the existence check, whether Dispatch itself raises (it sits
outside the try block, so its exception propagates), and the text the
Open/Content sequence yields (none when that raises, which the code turns
into ""). -/
structure WordFile where
  fileExists : Bool
  dispatchOk : Bool
  comText : Option String
  deriving Repr, DecidableEq

/-- extract_text_from_docx and extract_text_from_doc (resume_parser.py
lines 48-117, identical logic): raise FileNotFoundError when the file is
missing, propagate a Dispatch failure, degrade a COM error during
Open/Content to "". -/
def extract_text_from_word (d : WordFile) : Except String String :=
  if !d.fileExists then .error "FileNotFoundError"
  else if !d.dispatchOk then .error "COM Dispatch failed"
  else
    match d.comText with
    | some t => .ok t
    | Option.none => .ok ""

/-- The behaviour of one plain-text file: whether open/read succeeds and
the content it yields. -/
structure TxtFile where
  readOk : Bool
  content : String
  deriving Repr, DecidableEq

/-- extract_text_from_txt (resume_parser.py lines 120-132): any read error
is caught and becomes "". -/
def extract_text_from_txt (t : TxtFile) : String :=
  if t.readOk then t.content else ""

/-- One file found by the recursive scan, tagged by its (lower-cased)
suffix dispatch class. -/
inductive FileModel where
  | pdf (f : PdfFile)
  | docx (d : WordFile)
  | doc (d : WordFile)
  | txt (t : TxtFile)
  | other
  deriving Repr, DecidableEq

/-- True for the suffixes the scan extracts (.pdf .docx .doc .txt). -/
def supportedFile : FileModel → Bool
  | .other => false
  | _ => true

/-- The suffix dispatch of extract_resumes_text (lines 154-165): the .pdf
and .txt extractors never raise; the Word extractors may. -/
def extractDispatch : FileModel → Except String String
  | .pdf f => .ok (extract_text_from_pdf f)
  | .docx d => extract_text_from_word d
  | .doc d => extract_text_from_word d
  | .txt t => .ok (extract_text_from_txt t)
  | .other => .ok ""

/-- The string stored for one scanned file: the extractor's result, or the
placeholder built by the except branch at resume_parser.py line 168. -/
def scannedContent (fm : FileModel) : String :=
  match extractDispatch fm with
  | .ok s => s
  | .error e => "Error extracting text: " ++ e

/-- extract_resumes_text (resume_parser.py lines 135-172): walk the files
in scan order, skip unsupported suffixes, store extracted text (or the
error placeholder) under the relative path.  The folder existence check
happens before this loop and is modelled by the caller. -/
def extract_resumes_text : List (String × FileModel) → List (String × String)
  | [] => []
  | (rel, fm) :: rest =>
      if supportedFile fm then
        (rel, scannedContent fm) :: extract_resumes_text rest
      else
        extract_resumes_text rest

/-! ## main.py: the process entry point (lines 43-93)

The run is modelled as the sequence of externally visible actions it
performs.  process_job is imported from crelate_client but its definition
is not part of the repository sources; it appears as one opaque download
action carrying exactly the arguments of the call at main.py lines 62-67. -/

/-- An externally visible action of one run of main.py. -/
inductive Ev where
  | clearFolder (dir : String)
  | ensureDir (dir : String)
  | downloadJob (jobId stageName resumeDir docsDir : String)
  | extractTexts (dir : String)
  | modelCall
  | printResults
  | exitProc (code : Nat)
  deriving Repr, DecidableEq

/-- find_best_resumes (AI_agent.py lines 70-87) as an action trace:
extract the resume folder, extract the job-documents folder, then make
the one scoring model call. -/
def findBestResumesTrace (resumeDir docsDir : String) : List Ev :=
  [Ev.extractTexts resumeDir, Ev.extractTexts docsDir, Ev.modelCall]

/-- The __main__ block of main.py (lines 43-93): clear both output
folders, ensure they exist, call process_job(job_id, stage_name,
resume_dir, docs_dir), then find_best_resumes over both folders, then
print the JSON results; each failure point exits with status 1.
process_job's body is absent from the sources and is modelled as the
single opaque Ev.downloadJob action of its call site. -/
def mainEntry (jobId stageName : String) (mkdirOk downloadOk scoringOk : Bool) :
    List Ev :=
  [Ev.clearFolder "resumes", Ev.clearFolder "job_documents"] ++
  (if !mkdirOk then [Ev.exitProc 1]
   else
     [Ev.ensureDir "resumes", Ev.ensureDir "job_documents",
      Ev.downloadJob jobId stageName "resumes" "job_documents"] ++
     (if !downloadOk then [Ev.exitProc 1]
      else
        findBestResumesTrace "resumes" "job_documents" ++
        (if !scoringOk then [Ev.exitProc 1] else [Ev.printResults])))

/-! ## Lemmas about the stable descending sort -/

theorem mem_insertKeyDesc [LinearOrder β] (key : α → β) (x a : α) :
    ∀ l : List α, a ∈ insertKeyDesc key x l ↔ a = x ∨ a ∈ l := by
  intro l
  induction l with
  | nil => simp [insertKeyDesc]
  | cons y ys ih =>
      by_cases h : key x < key y
      · simp only [insertKeyDesc, if_pos h, List.mem_cons, ih]
        tauto
      · simp only [insertKeyDesc, if_neg h, List.mem_cons]

theorem pairwise_insertKeyDesc [LinearOrder β] (key : α → β) (x : α) :
    ∀ l : List α, l.Pairwise (fun a b => key b ≤ key a) →
      (insertKeyDesc key x l).Pairwise (fun a b => key b ≤ key a) := by
  intro l
  induction l with
  | nil => intro _; simp [insertKeyDesc]
  | cons y ys ih =>
      intro hp
      rcases List.pairwise_cons.mp hp with ⟨hy, hys⟩
      by_cases h : key x < key y
      · simp only [insertKeyDesc, if_pos h]
        refine List.pairwise_cons.mpr ⟨?_, ih hys⟩
        intro a ha
        rcases (mem_insertKeyDesc key x a ys).mp ha with rfl | ha
        · exact le_of_lt h
        · exact hy a ha
      · simp only [insertKeyDesc, if_neg h]
        refine List.pairwise_cons.mpr ⟨?_, hp⟩
        intro a ha
        rcases List.mem_cons.mp ha with rfl | ha
        · exact le_of_not_lt h
        · exact le_trans (hy a ha) (le_of_not_lt h)

theorem pairwise_sortKeyDesc [LinearOrder β] (key : α → β) :
    ∀ l : List α, (sortKeyDesc key l).Pairwise (fun a b => key b ≤ key a)
  | [] => by simp [sortKeyDesc]
  | x :: xs => pairwise_insertKeyDesc key x _ (pairwise_sortKeyDesc key xs)

theorem filter_insertKeyDesc [LinearOrder β] (key : α → β) (x : α) (p : α → Bool)
    (hp : ∀ a b, p a → p b → key a = key b) :
    ∀ l : List α, (insertKeyDesc key x l).filter p = (x :: l).filter p := by
  intro l
  induction l with
  | nil => rfl
  | cons y ys ih =>
      by_cases h : key x < key y
      · have hxy : ¬(p x ∧ p y) := by
          rintro ⟨hx, hy⟩
          exact absurd (hp x y hx hy) (ne_of_lt h)
        simp only [insertKeyDesc, if_pos h]
        by_cases hy : p y
        · have hx : p x = false := by
            cases hpx : p x
            · rfl
            · exact absurd ⟨hpx, hy⟩ hxy
          simp [List.filter_cons, hy, hx, ih, List.filter_cons]
        · simp [List.filter_cons, hy, ih, List.filter_cons]
      · simp only [insertKeyDesc, if_neg h]

theorem filter_sortKeyDesc [LinearOrder β] (key : α → β) (p : α → Bool)
    (hp : ∀ a b, p a → p b → key a = key b) :
    ∀ l : List α, (sortKeyDesc key l).filter p = l.filter p
  | [] => rfl
  | x :: xs => by
      rw [sortKeyDesc, filter_insertKeyDesc key x p hp]
      simp only [List.filter_cons]
      rw [filter_sortKeyDesc key p hp xs]

theorem perm_insertKeyDesc [LinearOrder β] (key : α → β) (x : α) :
    ∀ l : List α, (insertKeyDesc key x l).Perm (x :: l) := by
  intro l
  induction l with
  | nil => exact List.Perm.refl _
  | cons y ys ih =>
      by_cases h : key x < key y
      · simp only [insertKeyDesc, if_pos h]
        exact (ih.cons y).trans (List.Perm.swap x y ys)
      · simp only [insertKeyDesc, if_neg h]
        exact List.Perm.refl _

theorem perm_sortKeyDesc [LinearOrder β] (key : α → β) :
    ∀ l : List α, (sortKeyDesc key l).Perm l
  | [] => List.Perm.refl _
  | x :: xs => (perm_insertKeyDesc key x _).trans ((perm_sortKeyDesc key xs).cons x)

/-! ## Lemmas about the scoring pipeline -/

theorem clampScore_bounds (v : Option PyVal) (q : ℚ) (h : clampScore v = .ok q) :
    0 ≤ q ∧ q ≤ 100 := by
  unfold clampScore at h
  cases hp : pyFloat (v.getD (PyVal.num 0)) with
  | error e => rw [hp] at h; exact absurd h (by simp)
  | ok q0 =>
      rw [hp] at h
      have hq : max 0 (min 100 q0) = q := by
        have := h
        injection this
      subst hq
      exact ⟨le_max_left 0 _, max_le (by norm_num) (min_le_left 100 q0)⟩

theorem clampAll_ok_bounds :
    ∀ (rs : List RawEntry) (l : List ScoredEntry), clampAll rs = .ok l →
      ∀ e ∈ l, 0 ≤ e.score ∧ e.score ≤ 100 := by
  intro rs
  induction rs with
  | nil =>
      intro l h e he
      simp only [clampAll] at h
      injection h with h
      subst h
      simp at he
  | cons r rest ih =>
      intro l h e he
      simp only [clampAll] at h
      cases hq : clampScore r.score with
      | error msg => rw [hq] at h; exact absurd h (by simp)
      | ok q =>
          rw [hq] at h
          cases ht : clampAll rest with
          | error msg => rw [ht] at h; exact absurd h (by simp)
          | ok tail =>
              rw [ht] at h
              injection h with h
              subst h
              rcases List.mem_cons.mp he with rfl | he2
              · exact clampScore_bounds r.score q hq
              · exact ih tail ht e he2

theorem clampAll_map_filename :
    ∀ (rs : List RawEntry) (l : List ScoredEntry), clampAll rs = .ok l →
      l.map ScoredEntry.filename = rs.map RawEntry.filename := by
  intro rs
  induction rs with
  | nil =>
      intro l h
      simp only [clampAll] at h
      injection h with h
      subst h
      rfl
  | cons r rest ih =>
      intro l h
      simp only [clampAll] at h
      cases hq : clampScore r.score with
      | error msg => rw [hq] at h; exact absurd h (by simp)
      | ok q =>
          rw [hq] at h
          cases ht : clampAll rest with
          | error msg => rw [ht] at h; exact absurd h (by simp)
          | ok tail =>
              rw [ht] at h
              injection h with h
              subst h
              simp [ih tail ht]

theorem score_resumes_ok_iff (resumes : List (String × String)) (content : String)
    (parsed : List RawEntry) (out : List ScoredEntry) :
    score_resumes resumes content (some parsed) = .ok out ↔
      ∃ mid, clampAll parsed = .ok mid ∧ out = sortKeyDesc ScoredEntry.score mid := by
  unfold score_resumes
  cases hc : clampAll parsed with
  | error msg =>
      simp only [hc]
      constructor
      · intro h; exact absurd h (by simp)
      · rintro ⟨mid, hmid, _⟩; exact absurd hmid (by simp)
  | ok clamped =>
      simp only [hc]
      constructor
      · intro h
        injection h with h
        exact ⟨clamped, rfl, h.symm⟩
      · rintro ⟨mid, hmid, rfl⟩
        injection hmid with hmid
        subst hmid
        rfl

/-! ## Claim theorems -/

/-- C1: for every successfully parsed model response, every score in the
list returned by score_resumes is coerced to a number and clamped into
[0,100] inclusive, defaulting to 0 when the entry has no score; in
particular a reported -5 clamps to 0 and a numeric string "150" clamps
to 100. -/
theorem scores_clamped_C1 :
    (∀ (resumes : List (String × String)) (content : String)
       (parsed : List RawEntry) (out : List ScoredEntry),
       score_resumes resumes content (some parsed) = Except.ok out →
       ∀ e ∈ out, 0 ≤ e.score ∧ e.score ≤ 100) ∧
    score_resumes [("a.pdf", "ta"), ("b.pdf", "tb"), ("c.pdf", "tc")] "resp"
        (some [⟨"a.pdf", some (PyVal.num (-5)), "low"⟩,
               ⟨"b.pdf", some (PyVal.str "150"), "high"⟩,
               ⟨"c.pdf", Option.none, "missing"⟩]) =
      Except.ok [⟨"b.pdf", 100, "high"⟩, ⟨"a.pdf", 0, "low"⟩, ⟨"c.pdf", 0, "missing"⟩] := by
  constructor
  · intro resumes content parsed out hout e he
    rcases (score_resumes_ok_iff resumes content parsed out).mp hout with ⟨mid, hmid, rfl⟩
    exact clampAll_ok_bounds parsed mid hmid e
      ((perm_sortKeyDesc ScoredEntry.score mid).mem_iff.mp he)
  · rfl

/-- Witness for C1 at a concrete response holding -5, "150" and a missing
score. -/
theorem scores_clamped_C1_witness :
    0 ≤ ({ filename := "b.pdf", score := 100, rationale := "high" } : ScoredEntry).score ∧
    ({ filename := "b.pdf", score := 100, rationale := "high" } : ScoredEntry).score ≤ 100 :=
  scores_clamped_C1.1 [("a.pdf", "ta"), ("b.pdf", "tb"), ("c.pdf", "tc")] "resp"
    [⟨"a.pdf", some (PyVal.num (-5)), "low"⟩,
     ⟨"b.pdf", some (PyVal.str "150"), "high"⟩,
     ⟨"c.pdf", Option.none, "missing"⟩]
    [⟨"b.pdf", 100, "high"⟩, ⟨"a.pdf", 0, "low"⟩, ⟨"c.pdf", 0, "missing"⟩]
    (by rfl) _ (by simp)

/-- C2: the list returned by score_resumes is sorted by score descending,
and entries with equal scores keep the relative order they had in the
parsed model response (the clamped list is positionally aligned with the
response, and sorting preserves each equal-score class order). -/
theorem sorted_stable_C2 :
    ∀ (resumes : List (String × String)) (content : String)
      (parsed : List RawEntry) (mid : List ScoredEntry),
      clampAll parsed = Except.ok mid →
      score_resumes resumes content (some parsed) =
        Except.ok (sortKeyDesc ScoredEntry.score mid) ∧
      (sortKeyDesc ScoredEntry.score mid).Pairwise (fun a b => b.score ≤ a.score) ∧
      (∀ q : ℚ,
        (sortKeyDesc ScoredEntry.score mid).filter (fun e => decide (e.score = q)) =
          mid.filter (fun e => decide (e.score = q))) ∧
      mid.map ScoredEntry.filename = parsed.map RawEntry.filename := by
  intro resumes content parsed mid hmid
  refine ⟨(score_resumes_ok_iff resumes content parsed _).mpr ⟨mid, hmid, rfl⟩,
    pairwise_sortKeyDesc ScoredEntry.score mid, ?_,
    clampAll_map_filename parsed mid hmid⟩
  intro q
  refine filter_sortKeyDesc ScoredEntry.score _ ?_ mid
  intro a b ha hb
  simp only [decide_eq_true_eq] at ha hb
  rw [ha, hb]

/-- Witness for C2: stability at a concrete response with a tie at score
50 on either side of a 70. -/
theorem sorted_stable_C2_witness :
    (sortKeyDesc ScoredEntry.score
        [⟨"a.pdf", 50, "ra"⟩, ⟨"b.pdf", 70, "rb"⟩, ⟨"c.pdf", 50, "rc"⟩]).filter
        (fun e => decide (e.score = 50)) =
      ([⟨"a.pdf", 50, "ra"⟩, ⟨"b.pdf", 70, "rb"⟩, ⟨"c.pdf", 50, "rc"⟩] :
        List ScoredEntry).filter (fun e => decide (e.score = 50)) :=
  (sorted_stable_C2 [("a.pdf", "ta")] "resp"
    [⟨"a.pdf", some (PyVal.num 50), "ra"⟩,
     ⟨"b.pdf", some (PyVal.num 70), "rb"⟩,
     ⟨"c.pdf", some (PyVal.num 50), "rc"⟩]
    [⟨"a.pdf", 50, "ra"⟩, ⟨"b.pdf", 70, "rb"⟩, ⟨"c.pdf", 50, "rc"⟩]
    (by rfl)).2.2.1 50

/-- C3 counterexample: score_resumes happily returns an entry whose
filename is not a key of the candidate-resumes mapping passed into the
call — no membership check exists in the code. -/
theorem filenames_outside_batch_C3_cex :
    score_resumes [("a.txt", "text a")] "resp"
        (some [⟨"ghost.pdf", some (PyVal.num 50), "r"⟩]) =
      Except.ok [⟨"ghost.pdf", 50, "r"⟩] ∧
    "ghost.pdf" ∉ ([("a.txt", "text a")] : List (String × String)).map Prod.fst := by
  exact ⟨by rfl, by decide⟩

/-- C3 amended: score_resumes performs no check of result filenames
against the input mapping; the returned filenames are exactly (a
permutation of, namely the sorted arrangement of) the parsed response
filenames, so the batch invariant holds precisely when the model response
only mentions batch filenames. -/
theorem filenames_from_response_C3 :
    ∀ (resumes : List (String × String)) (content : String)
      (parsed : List RawEntry) (out : List ScoredEntry),
      score_resumes resumes content (some parsed) = Except.ok out →
      (out.map ScoredEntry.filename).Perm (parsed.map RawEntry.filename) ∧
      ((∀ f ∈ parsed.map RawEntry.filename, f ∈ resumes.map Prod.fst) →
        ∀ f ∈ out.map ScoredEntry.filename, f ∈ resumes.map Prod.fst) := by
  intro resumes content parsed out hout
  rcases (score_resumes_ok_iff resumes content parsed out).mp hout with ⟨mid, hmid, rfl⟩
  have hperm := (perm_sortKeyDesc ScoredEntry.score mid).map ScoredEntry.filename
  rw [clampAll_map_filename parsed mid hmid] at hperm
  exact ⟨hperm, fun hall f hf => hall f (hperm.mem_iff.mp hf)⟩

/-- Witness for the amended C3 at a concrete one-entry response. -/
theorem filenames_from_response_C3_witness :
    (([⟨"ghost.pdf", 50, "r"⟩] : List ScoredEntry).map ScoredEntry.filename).Perm
      (([⟨"ghost.pdf", some (PyVal.num 50), "r"⟩] : List RawEntry).map RawEntry.filename) :=
  (filenames_from_response_C3 [("a.txt", "text a")] "resp"
    [⟨"ghost.pdf", some (PyVal.num 50), "r"⟩]
    [⟨"ghost.pdf", 50, "r"⟩] (by rfl)).1

/-- C8: when json.loads fails on the model response, score_resumes fails
the whole operation with an error carrying the raw offending text, and
returns no result list. -/
theorem parse_failure_C8 :
    ∀ (resumes : List (String × String)) (content : String),
      score_resumes resumes content Option.none =
        Except.error ("Could not parse JSON response: " ++ content) ∧
      (∃ pre, "Could not parse JSON response: " ++ content = pre ++ content) ∧
      (∀ out : List ScoredEntry,
        score_resumes resumes content Option.none ≠ Except.ok out) := by
  intro resumes content
  refine ⟨rfl, ⟨"Could not parse JSON response: ", rfl⟩, fun out h => ?_⟩
  exact absurd h (by simp [score_resumes])

/-- Witness for C8 at a concrete unparsable response body. -/
theorem parse_failure_C8_witness :
    score_resumes [] "oops not json" Option.none =
      Except.error ("Could not parse JSON response: " ++ "oops not json") :=
  (parse_failure_C8 [] "oops not json").1

/-- C9: get_latest_stage returns an absent value on a 404 and on an empty
history, and otherwise sorts the history by Date descending in code
(whatever order the API used) and returns the Stage.Title of an entry
whose date is maximal. -/
theorem latest_stage_C9 :
    get_latest_stage ApiResp.notFound = Except.ok Option.none ∧
    get_latest_stage (ApiResp.ok []) = Except.ok Option.none ∧
    ∀ (h : HistEntry) (t : List HistEntry) (r : Option String),
      get_latest_stage (ApiResp.ok (h :: t)) = Except.ok r →
      ∃ e, e ∈ h :: t ∧ r = e.stageTitle ∧ ∀ f ∈ h :: t, f.date ≤ e.date := by
  refine ⟨rfl, rfl, ?_⟩
  intro h t r hr
  rcases he : sortKeyDesc HistEntry.date (h :: t) with _ | ⟨e, rest⟩
  · have hp := perm_sortKeyDesc HistEntry.date (h :: t)
    rw [he] at hp
    exact absurd hp.length_eq (by simp)
  · have hp := perm_sortKeyDesc HistEntry.date (h :: t)
    rw [he] at hp
    have hw := pairwise_sortKeyDesc HistEntry.date (h :: t)
    rw [he] at hw
    simp only [get_latest_stage, he] at hr
    injection hr with hr
    refine ⟨e, hp.mem_iff.mp (List.mem_cons_self e rest), hr.symm, ?_⟩
    intro f hf
    rcases List.mem_cons.mp (hp.mem_iff.mpr hf) with rfl | hf2
    · exact le_refl _
    · exact (List.pairwise_cons.mp hw).1 f hf2

/-- Witness for C9 at a concrete two-entry history delivered oldest
first. -/
theorem latest_stage_C9_witness :
    ∃ e, e ∈ [(⟨1, some "A"⟩ : HistEntry), ⟨5, some "Good Fit"⟩] ∧
      (some "Good Fit" : Option String) = e.stageTitle ∧
      ∀ f ∈ [(⟨1, some "A"⟩ : HistEntry), ⟨5, some "Good Fit"⟩], f.date ≤ e.date :=
  latest_stage_C9.2.2 ⟨1, some "A"⟩ [⟨5, some "Good Fit"⟩] (some "Good Fit") (by rfl)

/-- C10: download_contact_attachment is a pure skip — no filesystem
effect, no raised error — when the contact has no primary attachment
reference, when the reference has a falsy artifact Id, and when the
content request answers 404. -/
theorem download_skip_C10 :
    (∀ (c : Contact) (fetch : String → ContentResp), c.pa = Option.none →
       download_contact_attachment c fetch = Except.ok []) ∧
    (∀ (c : Contact) (fetch : String → ContentResp) (pa : Attachment),
       c.pa = some pa → truthyStr pa.id = false →
       download_contact_attachment c fetch = Except.ok []) ∧
    (∀ (c : Contact) (fetch : String → ContentResp) (pa : Attachment) (aid : String),
       c.pa = some pa → pa.id = some aid → aid.isEmpty = false →
       fetch aid = ContentResp.notFound →
       download_contact_attachment c fetch = Except.ok []) := by
  refine ⟨?_, ?_, ?_⟩
  · intro c fetch hpa
    simp [download_contact_attachment, hpa]
  · intro c fetch pa hpa hid
    simp [download_contact_attachment, hpa, hid]
  · intro c fetch pa aid hpa hid hne hfetch
    simp [download_contact_attachment, hpa, truthyStr, hid, hne, hfetch]

/-- Witness for C10 at a contact with no attachment reference. -/
theorem download_skip_C10_witness :
    download_contact_attachment ⟨"c1", Option.none⟩ (fun _ => ContentResp.notFound) =
      Except.ok [] :=
  download_skip_C10.1 ⟨"c1", Option.none⟩ (fun _ => ContentResp.notFound) rfl

/-- C5 is violated by the code: in the crelate_client.main loop a contact
whose stage history is empty makes get_latest_stage return None, the
.strip() call on None raises AttributeError, and the loop aborts before
the remaining contacts — the very same second contact that, processed
alone, downloads fine. -/
theorem stage_failure_aborts_batch_C5 :
    crelateMainLoop
      [⟨⟨"c1", Option.none⟩, ApiResp.ok [], ContentResp.notFound⟩,
       ⟨⟨"c2", some ⟨some "a1", some "r.pdf"⟩⟩, ApiResp.ok [⟨1, some "Good Fit"⟩],
        ContentResp.ok "bytes"⟩] =
      Except.error "AttributeError: NoneType object has no attribute strip" ∧
    crelateMainLoop
      [⟨⟨"c2", some ⟨some "a1", some "r.pdf"⟩⟩, ApiResp.ok [⟨1, some "Good Fit"⟩],
        ContentResp.ok "bytes"⟩] =
      Except.ok [FsEff.mkdirp "resumes/c2", FsEff.write "resumes/c2/r.pdf" "bytes"] := by
  exact ⟨rfl, rfl⟩

/-- C4 counterexample: a PDF that fails to open yields the empty string,
not a placeholder describing the error; the scan mapping stores "" for it
(the "Error extracting text" placeholder appears only for exceptions that
escape a per-file extractor, which the PDF path never lets happen). -/
theorem pdf_error_placeholder_C4_cex :
    extract_text_from_pdf ⟨false, false, false, []⟩ = "" ∧
    extract_resumes_text
      [("corrupt.pdf", FileModel.pdf ⟨false, false, false, []⟩),
       ("sibling.txt", FileModel.txt ⟨true, "hello"⟩)] =
      [("corrupt.pdf", ""), ("sibling.txt", "hello")] ∧
    ("" : String).isEmpty = true := by
  exact ⟨rfl, rfl, rfl⟩

/-- C4 amended: per-file PDF extraction never raises but degrades internal
failures (open failure, failed decryption) to the empty string; the scan
mapping contains an entry for every supported file whatever its siblings
do, and the error-describing placeholder appears exactly when an
exception escapes a per-file extractor (possible only on the Word
paths). -/
theorem extraction_isolation_C4 :
    (∀ f : PdfFile, f.openOk = false → extract_text_from_pdf f = "") ∧
    (∀ f : PdfFile, f.isEncrypted = true → f.decryptOk = false →
       extract_text_from_pdf f = "") ∧
    (∀ (fs : List (String × FileModel)) (rel : String) (fm : FileModel),
       (rel, fm) ∈ fs → supportedFile fm = true →
       (rel, scannedContent fm) ∈ extract_resumes_text fs) ∧
    (∀ (fm : FileModel) (e : String), extractDispatch fm = Except.error e →
       scannedContent fm = "Error extracting text: " ++ e) := by
  refine ⟨?_, ?_, ?_, ?_⟩
  · intro f h
    simp [extract_text_from_pdf, h]
  · intro f h1 h2
    simp [extract_text_from_pdf, h1, h2]
  · intro fs
    induction fs with
    | nil => intro rel fm h _; simp at h
    | cons p rest ih =>
        rcases p with ⟨r2, f2⟩
        intro rel fm hmem hsup
        rcases List.mem_cons.mp hmem with heq | h2
        · rw [Prod.mk.injEq] at heq
          obtain ⟨rfl, rfl⟩ := heq
          simp [extract_resumes_text, hsup]
        · by_cases hs : supportedFile f2 = true
          · simp only [extract_resumes_text, hs, if_true]
            exact List.mem_cons_of_mem _ (ih rel fm h2 hsup)
          · simp only [extract_resumes_text]
            rw [if_neg hs]
            exact ih rel fm h2 hsup
  · intro fm e h
    simp [scannedContent, h]

/-- Witness for the amended C4: the corrupt PDF, scanned next to a
healthy sibling, still gets its (empty-string) mapping entry. -/
theorem extraction_isolation_C4_witness :
    ("corrupt.pdf", scannedContent (FileModel.pdf ⟨false, false, false, []⟩)) ∈
      extract_resumes_text
        [("corrupt.pdf", FileModel.pdf ⟨false, false, false, []⟩),
         ("sibling.txt", FileModel.txt ⟨true, "hello"⟩)] :=
  extraction_isolation_C4.2.2.1
    [("corrupt.pdf", FileModel.pdf ⟨false, false, false, []⟩),
     ("sibling.txt", FileModel.txt ⟨true, "hello"⟩)]
    "corrupt.pdf" (FileModel.pdf ⟨false, false, false, []⟩)
    (by simp) (by rfl)

/-- C6: with every step succeeding, one run of the main.py entry point
performs, in order: clear both output folders, ensure they exist, call
the orchestration operation with the job id, stage name and both output
directories, extract text from both downloaded folders, make the one
scoring model call, and print the JSON ranked list. -/
theorem entry_order_C6 :
    ∀ jobId stageName : String,
      mainEntry jobId stageName true true true =
        [Ev.clearFolder "resumes", Ev.clearFolder "job_documents",
         Ev.ensureDir "resumes", Ev.ensureDir "job_documents",
         Ev.downloadJob jobId stageName "resumes" "job_documents",
         Ev.extractTexts "resumes", Ev.extractTexts "job_documents",
         Ev.modelCall, Ev.printResults] := by
  intro jobId stageName
  rfl

set_option maxRecDepth 20000 in
/-- C7: both pagination loops stop after the first page that is short or
that brings the running offset up to the reported total (whichever comes
first), and on pages of sizes [100, 100, 37] each client aggregates
exactly 237 items over exactly 3 requests. -/
theorem pagination_C7 :
    (∀ (α : Type) (p : Page α) (rest : List (Page α)), p.data.length < 100 →
       get_job_contacts (p :: rest) = some (p.data, 1)) ∧
    (∀ (α : Type) (p : Page α) (rest : List (Page α)) (tc : Nat),
       p.totalCount = some tc → tc ≤ p.data.length →
       get_job_contacts (p :: rest) = some (p.data, 1)) ∧
    get_job_contacts
      [(⟨List.range 100, some 237, Option.none⟩ : Page Nat),
       ⟨List.range' 100 100, some 237, Option.none⟩,
       ⟨List.range' 200 37, some 237, Option.none⟩] =
      some (List.range 237, 3) ∧
    get_job_documents
      [(⟨List.range 100, Option.none, some 237⟩ : Page Nat),
       ⟨List.range' 100 100, Option.none, some 237⟩,
       ⟨List.range' 200 37, Option.none, some 237⟩] =
      some (List.range 237, 3) := by
  refine ⟨?_, ?_, ?_, ?_⟩
  · intro α p rest hlen
    by_cases he : p.data.isEmpty = true
    · have hnil := List.isEmpty_iff.mp he
      simp [get_job_contacts, getJobContactsLoop, he, hnil]
    · simp [get_job_contacts, getJobContactsLoop, he, stopAfterBatch, pageSize, hlen]
  · intro α p rest tc htc hle
    by_cases he : p.data.isEmpty = true
    · have hnil := List.isEmpty_iff.mp he
      simp [get_job_contacts, getJobContactsLoop, he, hnil]
    · simp [get_job_contacts, getJobContactsLoop, he, stopAfterBatch, pageSize, htc, hle]
  · rfl
  · rfl

/-- Witness for C7: a single short page stops after one request, and a
full page whose reported total is already reached stops after one
request. -/
theorem pagination_C7_witness :
    get_job_contacts [(⟨[0, 1, 2], some 3, Option.none⟩ : Page Nat)] =
      some ([0, 1, 2], 1) ∧
    get_job_contacts [(⟨List.range 100, some 100, Option.none⟩ : Page Nat)] =
      some (List.range 100, 1) :=
  ⟨pagination_C7.1 Nat ⟨[0, 1, 2], some 3, Option.none⟩ [] (by decide),
   pagination_C7.2.1 Nat ⟨List.range 100, some 100, Option.none⟩ [] 100 rfl (by simp)⟩

end AIRecruiter
